import Mathlib

/-!
Verification of the Site Suitability & Material Proximity Decision Engine
(timbua-portal, `decision-support.ts` and `cohere-ai.service.ts`).

The TypeScript component is shallowly embedded: numbers are modelled as
rationals, `Math.round` and `toFixed` as explicit rounding functions,
JavaScript string `includes` as substring containment on character lists,
and the third-party geometry library (turf) as an abstract provider
passed in as a parameter, following the GeometryProvider capability
interface described in the design notes of the specification.
-/

namespace Timbua

/-- Model of JavaScript `Math.round`: round half toward positive infinity. -/
def jsRound (x : ℚ) : ℤ := ⌊x + 1/2⌋

/-- Model of a JavaScript numeric field that may be absent or NaN:
`missing` stands for `undefined`, `nanv` for `NaN`, `numv q` for a finite number. -/
inductive JSNum where
  | missing
  | nanv
  | numv (q : ℚ)
deriving DecidableEq, Repr

/-- Model of `Number(v) || d`: `undefined` coerces to NaN, NaN and 0 are falsy. -/
def jsNumOr (v : JSNum) (d : ℚ) : ℚ :=
  match v with
  | .missing => d
  | .nanv => d
  | .numv q => if q = 0 then d else q

/-- Model of `v || d` for an optional string field: `undefined` and the empty
string are falsy. -/
def jsStrOr (v : Option String) (d : String) : String :=
  match v with
  | none => d
  | some s => if s.isEmpty then d else s

/-- Model of JavaScript `h.includes(n)`: `n` occurs contiguously in `h`. -/
def strContains (h n : String) : Bool := decide (n.data <:+: h.data)

/-- The `RestrictedZone` record produced by zone ingestion.
`coordinates` is a list of lon/lat rings, `bounds` the precomputed
bounding box `[minLng, minLat, maxLng, maxLat]`. -/
structure RestrictedZone where
  id : String
  name : String
  type : String
  coordinates : List (List (ℚ × ℚ))
  bufferDistance : ℚ
  bounds : Option (ℚ × ℚ × ℚ × ℚ)
deriving DecidableEq, Repr

/-- Severity of a restriction finding: the site is inside the zone body, or
inside its buffer. -/
inductive Severity where
  | inside
  | buffered
deriving DecidableEq, Repr

/-- A restriction finding: a zone hit together with its severity. -/
structure Finding where
  zone : RestrictedZone
  severity : Severity
deriving DecidableEq, Repr

/-- The restriction strings pushed by `checkRestrictionsOptimized`:
an `Inside` hit mentions the zone name and its type, a `Buffered` hit
mentions the buffer distance and the zone name only. -/
def restrictionString (f : Finding) : String :=
  match f.severity with
  | .inside => "🚫 Site is inside " ++ (f.zone.name ++ (" (" ++ (f.zone.type ++ ")")))
  | .buffered =>
      "⚠️ Site is within " ++ (toString f.zone.bufferDistance ++
        ("m buffer of " ++ f.zone.name))

/-- The `location` sub-record of a supply-site `Material`. -/
structure MatLocation where
  name : String
  latitude : ℚ
  longitude : ℚ
  county : String
  subCounty : String
  ward : String
deriving DecidableEq, Repr

/-- A supply-site record as stored after `transformApiResponse`
(metadata fields that no modelled computation reads are omitted). -/
structure Material where
  id : String
  questionnaireNo : String
  researchAssistantNo : String
  name : String
  type : List String
  location : MatLocation
  challenges : List String
  recommendations : List String
  timestamp : String
  icon : String
deriving DecidableEq, Repr

/-- One entry of `AnalysisResult.nearestMaterials`: a supply site with its
rounded distance in meters and rounded travel time in minutes. -/
structure ProximityEntry where
  material : Material
  distance : ℤ
  travelTime : ℤ
deriving DecidableEq, Repr

/-- The Recommendation Synthesizer `generateRecommendations`, ported
statement by statement from the source: a compliance block, a material
accessibility block, and one fixed advisory pair per zone-type keyword
found in the restriction strings. -/
def generateRecommendations (restrictions : List String)
    (nearestMaterials : List ProximityEntry) : List String :=
  let part1 :=
    if restrictions.length > 0 then
      ["❌ Site has regulatory restrictions - consider alternative location",
       "📋 Required: Environmental impact assessment and permits"]
    else
      ["✅ Site appears regulatory compliant",
       "📝 Proceed with standard construction approval process"]
  let part2 :=
    match nearestMaterials with
    | [] =>
      ["❌ No material sources found nearby",
       "🔍 Expand search radius or consider alternative materials"]
    | closest :: _ =>
      (if closest.distance < 2000 then ["🚚 Excellent material accessibility (< 2km)"]
       else if closest.distance < 5000 then ["🚛 Good material availability (2-5km)"]
       else ["💰 Consider transportation costs for distant materials"])
      ++ ["📦 Nearest source: " ++ (closest.material.name ++ (" (" ++ (toString closest.distance ++ "m)")))]
      ++ (let materialTypes := nearestMaterials.flatMap (fun item => item.material.type)
          (if materialTypes.contains ("Sand") then
            ["💧 Consider water requirements for sand-based materials"] else [])
          ++ (if materialTypes.contains ("Blocks") then
            ["🏗️ Block materials suitable for foundation work"] else [])
          ++ (if materialTypes.contains ("Ballast") then
            ["🛣️ Ballast ideal for road construction and foundations"] else []))
  let part3 :=
    (if restrictions.any (fun r => strContains r ("Water Body")) then
       ["💧 Water body nearby - consider flood risk and water table",
        "🌊 Required: Water resource management plan and flood assessment"] else [])
    ++ (if restrictions.any (fun r => strContains r ("Protected Area")) then
       ["🌿 Near protected area - enhanced environmental compliance required",
        "🦁 Required: Wildlife impact assessment and conservation plan"] else [])
    ++ (if restrictions.any (fun r => strContains r ("Airport")) then
       ["✈️ Near airport - height restrictions and noise considerations apply",
        "📡 Required: Aviation safety assessment and height clearance"] else [])
    ++ (if restrictions.any (fun r => strContains r ("Transportation Corridor")) then
       ["🛣️ Near transportation corridor - access and safety considerations",
        "🚧 Required: Traffic management plan and access permits"] else [])
  part1 ++ part2 ++ part3

/-! ## Zone Ingestion & Classifier -/

/-- A raw geographic feature: the required `name` property and the remaining
property tags, modelled as string key/value pairs. -/
structure GeoFeature where
  name : String
  tags : List (String × String)
deriving DecidableEq, Repr

/-- The full property map of a feature, `name` first, mirroring the declared
property order of the `GeoJSONFeature` interface. -/
def featureProps (f : GeoFeature) : List (String × String) :=
  ("name", f.name) :: f.tags

/-- Model of `JSON.stringify(feature.properties)` for a string-valued
property map. -/
def jsonStringify (pairs : List (String × String)) : String :=
  "\x7b" ++
    (String.intercalate "," (pairs.map (fun p =>
      "\"" ++ (p.1 ++ ("\":\"" ++ (p.2 ++ "\""))))) ++ "\x7d")

/-- The lowercased serialized property map used by `determineZoneType`. -/
def otherPropsOf (f : GeoFeature) : String :=
  (jsonStringify (featureProps f)).toLower

/-- Model of the truthiness test `feature.properties[k]`: the key is present
with a non-empty string value. -/
def truthyTag (f : GeoFeature) (k : String) : Bool :=
  match (featureProps f).lookup k with
  | some v => !v.isEmpty
  | none => false

/-- The zone classifier `determineZoneType`, ported check by check from the
source, including the duplicated `highway` test. -/
def determineZoneType (f : GeoFeature) : String :=
  let name := f.name.toLower
  let otherProps := otherPropsOf f
  if strContains name ("airport") || strContains name ("aerodrome") ||
      strContains otherProps ("aeroway") then
    "Airport"
  else if strContains name ("national park") || strContains name ("reserve") ||
      strContains name ("protected") || strContains name ("conservancy") ||
      strContains name ("wildlife") || strContains name ("forest") then
    "Protected Area"
  else if strContains name ("lake") || strContains name ("river") ||
      strContains name ("water") || strContains name ("reservoir") ||
      strContains name ("wetland") || strContains name ("swamp") ||
      strContains name ("dam") || strContains name ("stream") ||
      strContains name ("creek") || strContains name ("pond") ||
      strContains name ("lagoon") || strContains otherProps ("natural=water") then
    "Water Body"
  else if strContains name ("highway") || strContains name ("road") ||
      strContains name ("street") || strContains name ("avenue") ||
      strContains name ("railway") || strContains name ("railroad") ||
      strContains name ("rail track") || strContains name ("highway") ||
      strContains name ("motorway") || strContains name ("expressway") ||
      strContains name ("freeway") || strContains otherProps ("highway") ||
      strContains otherProps ("railway") then
    "Transportation Corridor"
  else if ((featureProps f).lookup ("boundary") == some ("national_park")) ||
      ((featureProps f).lookup ("boundary") == some ("protected_area")) then
    "Protected Area"
  else if truthyTag f ("aeroway") then
    "Airport"
  else if (featureProps f).lookup ("natural") == some ("water") then
    "Water Body"
  else if truthyTag f ("highway") || truthyTag f ("railway") then
    "Transportation Corridor"
  else
    "Restricted Area"

/-- The fixed buffer-distance lookup `getBufferDistance`, in meters. -/
def getBufferDistance (zoneType : String) : ℚ :=
  match zoneType with
  | "Protected Area" => 2000
  | "Airport" => 3000
  | "Water Body" => 500
  | "Transportation Corridor" => 200
  | _ => 1000

/-- Name-or-serialized-tag match for Airport used by the first check of
`determineZoneType`. -/
def matchAirportPrimary (f : GeoFeature) : Bool :=
  strContains f.name.toLower ("airport") || strContains f.name.toLower ("aerodrome") ||
    strContains (otherPropsOf f) ("aeroway")

/-- Name match for Protected Area used by the second check of
`determineZoneType`. -/
def matchProtectedName (f : GeoFeature) : Bool :=
  strContains f.name.toLower ("national park") || strContains f.name.toLower ("reserve") ||
    strContains f.name.toLower ("protected") || strContains f.name.toLower ("conservancy") ||
    strContains f.name.toLower ("wildlife") || strContains f.name.toLower ("forest")

/-- Name-or-serialized-tag match for Water Body used by the third check of
`determineZoneType`. -/
def matchWaterPrimary (f : GeoFeature) : Bool :=
  strContains f.name.toLower ("lake") || strContains f.name.toLower ("river") ||
    strContains f.name.toLower ("water") || strContains f.name.toLower ("reservoir") ||
    strContains f.name.toLower ("wetland") || strContains f.name.toLower ("swamp") ||
    strContains f.name.toLower ("dam") || strContains f.name.toLower ("stream") ||
    strContains f.name.toLower ("creek") || strContains f.name.toLower ("pond") ||
    strContains f.name.toLower ("lagoon") || strContains (otherPropsOf f) ("natural=water")

/-- Name-or-serialized-tag match for Transportation Corridor used by the
fourth check of `determineZoneType`. -/
def matchTransportPrimary (f : GeoFeature) : Bool :=
  strContains f.name.toLower ("highway") || strContains f.name.toLower ("road") ||
    strContains f.name.toLower ("street") || strContains f.name.toLower ("avenue") ||
    strContains f.name.toLower ("railway") || strContains f.name.toLower ("railroad") ||
    strContains f.name.toLower ("rail track") || strContains f.name.toLower ("highway") ||
    strContains f.name.toLower ("motorway") || strContains f.name.toLower ("expressway") ||
    strContains f.name.toLower ("freeway") || strContains (otherPropsOf f) ("highway") ||
    strContains (otherPropsOf f) ("railway")

/-- Boundary-tag fallback match for Protected Area. -/
def matchBoundaryTag (f : GeoFeature) : Bool :=
  ((featureProps f).lookup ("boundary") == some ("national_park")) ||
    ((featureProps f).lookup ("boundary") == some ("protected_area"))

/-- Aeroway-tag fallback match for Airport. -/
def matchAerowayTag (f : GeoFeature) : Bool := truthyTag f ("aeroway")

/-- Natural-water-tag fallback match for Water Body. -/
def matchNaturalWaterTag (f : GeoFeature) : Bool :=
  (featureProps f).lookup ("natural") == some ("water")

/-- Highway/railway-tag fallback match for Transportation Corridor. -/
def matchHighwayRailTag (f : GeoFeature) : Bool :=
  truthyTag f ("highway") || truthyTag f ("railway")

/-- First matching entry of an ordered predicate table, with a default. -/
def firstMatch (table : List ((GeoFeature → Bool) × String)) (dflt : String)
    (f : GeoFeature) : String :=
  match table with
  | [] => dflt
  | (p, t) :: rest => if p f then t else firstMatch rest dflt f

/-- The ordered predicate table actually implemented by `determineZoneType`:
name-based (plus serialized-tag) checks first, then the tag-only fallbacks. -/
def codeZoneTable : List ((GeoFeature → Bool) × String) :=
  [(matchAirportPrimary, "Airport"),
   (matchProtectedName, "Protected Area"),
   (matchWaterPrimary, "Water Body"),
   (matchTransportPrimary, "Transportation Corridor"),
   (matchBoundaryTag, "Protected Area"),
   (matchAerowayTag, "Airport"),
   (matchNaturalWaterTag, "Water Body"),
   (matchHighwayRailTag, "Transportation Corridor")]

/-- Derived from the words of the claim, not from the source: the zone type
chosen by the fixed priority Airport > ProtectedArea > WaterBody >
TransportationCorridor > Other, where each type matches by any of its
name-based or tag-based predicates. Used only to compare the claimed rule
with `determineZoneType`. -/
def specPriorityZoneType (f : GeoFeature) : String :=
  if matchAirportPrimary f || matchAerowayTag f then "Airport"
  else if matchProtectedName f || matchBoundaryTag f then "Protected Area"
  else if matchWaterPrimary f || matchNaturalWaterTag f then "Water Body"
  else if matchTransportPrimary f || matchHighwayRailTag f then "Transportation Corridor"
  else "Restricted Area"

/-! ## Geometry normalization -/

/-- The polygon-ring simplification step of `simplifyPolygon`: keep the
vertices whose index is divisible by 3. -/
def keepEvery3 (polygon : List (ℚ × ℚ)) : List (ℚ × ℚ) :=
  ((polygon.enum).filter (fun p => p.1 % 3 == 0)).map Prod.snd

/-- `simplifyPolygon`: rings with more than 50 vertices keep every 3rd
vertex, shorter rings pass through unchanged. -/
def simplifyPolygon (coordinates : List (List (ℚ × ℚ))) : List (List (ℚ × ℚ)) :=
  coordinates.map (fun polygon =>
    if polygon.length > 50 then keepEvery3 polygon else polygon)

/-- `calculateBounds`: the bounding box `[minLng, minLat, maxLng, maxLat]` of
a ring. The empty case is unreachable because callers guard on a non-empty
ring. -/
def calculateBounds (coordinates : List (ℚ × ℚ)) : ℚ × ℚ × ℚ × ℚ :=
  match coordinates with
  | [] => (0, 0, 0, 0)
  | c :: rest =>
    (rest.foldl (fun a p => min a p.1) c.1,
     rest.foldl (fun a p => min a p.2) c.2,
     rest.foldl (fun a p => max a p.1) c.1,
     rest.foldl (fun a p => max a p.2) c.2)

/-- Geometry of a raw feature. -/
inductive Geometry where
  | polygon (coords : List (List (ℚ × ℚ)))
  | multiPolygon (coords : List (List (List (ℚ × ℚ))))
  | lineString (coords : List (ℚ × ℚ))
  | point (p : ℚ × ℚ)
  | otherGeom
deriving Repr

/-- External turf operations used by feature processing, modelled as an
abstract provider: `circle8` stands for the 8-step `turf.circle` polygon and
`lineStringToPolygon` for the line-buffering helper (which never throws
because it falls back to a rectangular envelope internally). -/
structure TurfModel where
  circle8 : (ℚ × ℚ) → List (List (ℚ × ℚ))
  lineStringToPolygon : List (ℚ × ℚ) → ℚ → List (List (ℚ × ℚ))

/-- Processing of one feature inside `processFeatureBatch`: classify, pick a
buffer distance, normalize the geometry and build the `RestrictedZone`.
Returns `none` where the source `continue`s or skips the feature. The extra
list nesting the source wraps around the `turf.circle` result is not
reproduced; no claim concerns `Point` features. -/
def processFeature (turf : TurfModel) (startIndex i : ℕ) (f : GeoFeature)
    (geom : Geometry) : Option RestrictedZone :=
  if f.name.isEmpty then none
  else
    let zoneType := determineZoneType f
    let bufferDistance := getBufferDistance zoneType
    let coordinates : Option (List (List (ℚ × ℚ))) :=
      match geom with
      | .polygon cs => some (simplifyPolygon cs)
      | .multiPolygon cs => some (simplifyPolygon (cs.headD []))
      | .lineString cs => some (turf.lineStringToPolygon cs (bufferDistance / 1000))
      | .point p => some (turf.circle8 p)
      | .otherGeom => none
    match coordinates with
    | none => none
    | some coords =>
      if 0 < coords.length ∧ 0 < (coords.headD []).length then
        some { id := "geojson-" ++ (f.name ++ ("-" ++ toString (startIndex + i))),
               name := f.name,
               type := zoneType,
               coordinates := coords,
               bufferDistance := bufferDistance,
               bounds := some (calculateBounds (coords.headD [])) }
      else none

/-- A ring is closed when its first and last vertex agree. -/
def ringClosed (ring : List (ℚ × ℚ)) : Prop := ring.head? = ring.getLast?

instance (ring : List (ℚ × ℚ)) : Decidable (ringClosed ring) := by
  unfold ringClosed; infer_instance

/-! ## Supply-site ingestion -/

/-- The raw `material` field of an API record: absent, an array of strings, a
string, or some other truthy value that `String(...)` renders. -/
inductive RawMaterialField where
  | missing
  | arr (l : List String)
  | str (s : String)
  | other (v : String)
deriving DecidableEq, Repr

/-- A raw supply-site record as returned by the material-sites API; only the
fields `transformApiResponse` reads are modelled. `mongoId` stands for the
`_id` field. -/
structure RawSupplyItem where
  mongoId : Option String
  id : Option String
  questionnaireNo : Option String
  researchAssistantNo : Option String
  material : RawMaterialField
  materialLocation : Option String
  locationName : Option String
  locationCounty : Option String
  locationSubCounty : Option String
  locationWard : Option String
  latitude : JSNum
  longitude : JSNum
  challenges : Option (List String)
  recommendations : Option (List String)
  timestamp : Option String
  createdAt : Option String
deriving Repr

/-- `getMaterialIcon`: pick a marker icon from the material type keywords. -/
def getMaterialIcon (materialTypes : List String) : String :=
  let types := materialTypes.map (fun t => t.toLower)
  if types.any (fun t => strContains t ("sand")) then "🏖️"
  else if types.any (fun t => strContains t ("ballast")) then "⛰️"
  else if types.any (fun t => strContains t ("block")) then "🧱"
  else if types.any (fun t => strContains t ("rock")) then "🪨"
  else if types.any (fun t => strContains t ("cement")) then "🏭"
  else if types.any (fun t => strContains t ("clay")) then "🟫"
  else if types.any (fun t => strContains t ("stone")) then "🔶"
  else "📦"

/-- Transformation of one raw record inside `transformApiResponse`. `now`
stands for `new Date().toISOString()`. -/
def transformOne (now : String) (item : RawSupplyItem) : Material :=
  let materialTypes : List String :=
    match item.material with
    | .missing => ["Unknown"]
    | .arr l => l
    | .str s => if s.isEmpty then ["Unknown"] else (s.splitOn (",")).map (fun m => m.trim)
    | .other v => [v]
  let locationName := jsStrOr item.materialLocation (jsStrOr item.locationName ("Unknown Location"))
  let latitude := jsNumOr item.latitude (-1.2921)
  let longitude := jsNumOr item.longitude 36.8219
  { id := jsStrOr item.mongoId (jsStrOr item.id
      ("material-" ++ jsStrOr item.questionnaireNo ("unknown"))),
    questionnaireNo := jsStrOr item.questionnaireNo ("N/A"),
    researchAssistantNo := jsStrOr item.researchAssistantNo ("N/A"),
    name := match item.material with
      | .missing => "Unnamed Material"
      | .arr l => String.intercalate "," l
      | .str s => if s.isEmpty then "Unnamed Material" else s
      | .other v => v,
    type := materialTypes,
    location :=
      { name := locationName,
        latitude := latitude,
        longitude := longitude,
        county := jsStrOr item.locationCounty ("Unknown"),
        subCounty := jsStrOr item.locationSubCounty ("Unknown"),
        ward := jsStrOr item.locationWard ("Unknown") },
    challenges := item.challenges.getD [],
    recommendations := item.recommendations.getD [],
    timestamp := jsStrOr item.timestamp (jsStrOr item.createdAt now),
    icon := getMaterialIcon materialTypes }

/-- `transformApiResponse`: map every raw record to a `Material`; no record
is dropped. -/
def transformApiResponse (now : String) (apiData : List RawSupplyItem) : List Material :=
  apiData.map (transformOne now)

/-! ## Nearest-Supply Finder -/

/-- A candidate site selected on the map. -/
structure Site where
  lat : ℚ
  lng : ℚ
deriving DecidableEq, Repr

/-- The comparator `(a, b) => a.distance - b.distance` of the source, as the
ordering relation it realizes. -/
def byDistance (a b : ProximityEntry) : Prop := a.distance ≤ b.distance

instance : DecidableRel byDistance := fun a b => by
  unfold byDistance; infer_instance

instance : IsTotal ProximityEntry byDistance :=
  ⟨fun a b => Int.le_total a.distance b.distance⟩

instance : IsTrans ProximityEntry byDistance :=
  ⟨fun _ _ _ => Int.le_trans⟩

/-- `findNearestMaterialsOptimized`: compute the distance of every supply
site, round it, derive the travel time at 40 km/h from the unrounded
distance, keep entries within 50 km, sort ascending by distance and keep the
first five. `dist` is the great-circle distance in kilometers delivered by
the external geometry library, applied to (lng, lat) points. -/
def findNearestMaterialsOptimized (dist : (ℚ × ℚ) → (ℚ × ℚ) → ℚ)
    (materials : List Material) (site : Site) : List ProximityEntry :=
  let sitePoint := (site.lng, site.lat)
  let maxDistance : ℤ := 50000
  (((materials.map (fun material =>
      let materialPoint := (material.location.longitude, material.location.latitude)
      let distance := dist sitePoint materialPoint * 1000
      ({ material := material,
         distance := jsRound distance,
         travelTime := jsRound ((distance / 1000) / 40 * 60) } : ProximityEntry))).filter
    (fun item => item.distance ≤ maxDistance)).insertionSort byDistance).take 5

/-! ## Restriction Evaluator, Result Cache & Session Controller -/

/-- The third-party geometry operations used by the Restriction Evaluator,
modelled as an abstract provider; `none` models a thrown exception or an
`undefined` buffer, which the source catches and treats as a skip. -/
structure GeoProvider where
  booleanPointInPolygon : (ℚ × ℚ) → List (List (ℚ × ℚ)) → Option Bool
  buffer : List (List (ℚ × ℚ)) → ℚ → Option (List (List (ℚ × ℚ)))

/-- Evaluation of one zone inside `checkRestrictionsOptimized` after the
bounding-box filter: body containment first, then buffer containment. -/
def checkZone (geo : GeoProvider) (sitePoint : ℚ × ℚ) (zone : RestrictedZone) : List String :=
  match geo.booleanPointInPolygon sitePoint zone.coordinates with
  | none => []
  | some true => [restrictionString ⟨zone, .inside⟩]
  | some false =>
    match geo.buffer zone.coordinates (zone.bufferDistance / 1000) with
    | none => []
    | some buf =>
      match geo.booleanPointInPolygon sitePoint buf with
      | some true => [restrictionString ⟨zone, .buffered⟩]
      | _ => []

/-- `checkRestrictionsOptimized`: for every zone in ingestion order, reject
via the bounding box when possible, otherwise run the containment tests. -/
def checkRestrictionsOptimized (geo : GeoProvider) (zones : List RestrictedZone)
    (site : Site) : List String :=
  zones.flatMap (fun zone =>
    match zone.bounds with
    | some (minLng, minLat, maxLng, maxLat) =>
      if site.lng < minLng ∨ site.lng > maxLng ∨ site.lat < minLat ∨ site.lat > maxLat then []
      else checkZone geo (site.lng, site.lat) zone
    | none => checkZone geo (site.lng, site.lat) zone)

/-- The result delivered for one evaluated site. -/
structure AnalysisResult where
  isValid : Bool
  restrictions : List String
  nearestMaterials : List ProximityEntry
  recommendations : List String
deriving DecidableEq, Repr

/-- The collaborators and stores an evaluation reads: geometry provider,
distance provider, zone store and supply-site store. -/
structure Env where
  geo : GeoProvider
  dist : (ℚ × ℚ) → (ℚ × ℚ) → ℚ
  zones : List RestrictedZone
  materials : List Material

/-- The non-cached path of `analyzeSite`: run the evaluator, the finder and
the synthesizer and assemble the `AnalysisResult`. -/
def computeAnalysis (env : Env) (site : Site) : AnalysisResult :=
  let restrictions := checkRestrictionsOptimized env.geo env.zones site
  let nearestMaterials := findNearestMaterialsOptimized env.dist env.materials site
  let recommendations := generateRecommendations restrictions nearestMaterials
  { isValid := restrictions.length == 0,
    restrictions := restrictions,
    nearestMaterials := nearestMaterials,
    recommendations := recommendations }

/-- Model of `x.toFixed(4)` for the cache key: the sign of `x` together with
the scaled magnitude rounded per ECMAScript (closest integer, ties to the
larger). The pair determines the produced digit string injectively; note
that a negative `x` rounding to magnitude 0 yields the distinct string
"-0.0000". -/
def toFixed4 (x : ℚ) : Bool × ℤ := (decide (x < 0), ⌊|x| * 10000 + 1/2⌋)

/-- The quantized cache key `lat.toFixed(4) ++ "," ++ lng.toFixed(4)`. -/
def cacheKey (site : Site) : (Bool × ℤ) × (Bool × ℤ) :=
  (toFixed4 site.lat, toFixed4 site.lng)

/-- The numeric value a coordinate rounds to at 4 decimal places. -/
def q4val (x : ℚ) : ℚ :=
  (if x < 0 then -1 else 1) * ((⌊|x| * 10000 + 1/2⌋ : ℤ) : ℚ) / 10000

/-- `analyzeSite` with the memoization cache made explicit: on a key hit the
cached result is returned and nothing is recomputed; on a miss the result is
computed and stored. -/
def analyzeSite (env : Env) (cache : List (((Bool × ℤ) × (Bool × ℤ)) × AnalysisResult))
    (site : Site) : List (((Bool × ℤ) × (Bool × ℤ)) × AnalysisResult) × AnalysisResult :=
  let key := cacheKey site
  match cache.lookup key with
  | some cached => (cache, cached)
  | none =>
    let result := computeAnalysis env site
    ((key, result) :: cache, result)

/-- The selection debounce of `onMapClick`, as a fold over timestamped
selections: a selection more than `ANALYSIS_DEBOUNCE = 500` ms after the last
immediately evaluated one runs at once and updates `lastAnalysisTime`; any
other selection is scheduled 500 ms after its arrival via `setTimeout` and
leaves `lastAnalysisTime` unchanged. The output lists every performed
evaluation with its time. -/
def processClicks {α : Type} (lastAnalysisTime : ℤ) : List (ℤ × α) → List (ℤ × α)
  | [] => []
  | (t, site) :: rest =>
    if t - lastAnalysisTime > 500 then (t, site) :: processClicks t rest
    else (t + 500, site) :: processClicks lastAnalysisTime rest

/-! ## AI augmentation collaborator (`cohere-ai.service.ts`) -/

/-- A sanitized alternative-location suggestion. -/
structure AltLocation where
  lat : ℚ
  lng : ℚ
  reason : String
  distance : ℚ
deriving DecidableEq, Repr

/-- The `AIRecommendation` record delivered downstream. -/
structure AIRecommendation where
  summary : String
  recommendation : String
  alternativeLocation : Option AltLocation
  riskLevel : String
  confidence : ℚ
  keyFactors : List String
  nextSteps : List String
deriving DecidableEq, Repr

/-- A raw `alternativeLocation` object from the AI response. -/
structure RawAltLocation where
  lat : JSNum
  lng : JSNum
  reason : Option String
  distance : JSNum
deriving Repr

/-- A parsed but unvalidated AI response object; absent fields are `none`,
and `keyFactors`/`nextSteps` are `none` when not arrays. -/
structure RawAIResponse where
  summary : Option String
  recommendation : Option String
  recomendation : Option String
  alternativeLocation : Option RawAltLocation
  riskLevel : Option String
  confidence : JSNum
  keyFactors : Option (List String)
  nextSteps : Option (List String)
deriving Repr

/-- `sanitizeCoordinate`: clamp a coordinate into the Kenyan bounding box,
defaulting falsy input to the Nairobi reference point. `isLat` selects the
latitude branch. -/
def sanitizeCoordinate (coord : JSNum) (isLat : Bool) : ℚ :=
  if isLat then max (-4) (min 4 (jsNumOr coord (-1.2921)))
  else max 33 (min 42 (jsNumOr coord 36.8219))

/-- `validateAIResponse`: fill defaults and clamp every field so the
delivered record is structurally valid. -/
def validateAIResponse (response : RawAIResponse) : AIRecommendation :=
  let recommendation := jsStrOr response.recommendation
    (jsStrOr response.recomendation ("Consider professional site assessment"))
  { summary := jsStrOr response.summary ("AI analysis completed"),
    recommendation := recommendation,
    alternativeLocation := response.alternativeLocation.map (fun alt =>
      { lat := sanitizeCoordinate alt.lat true,
        lng := sanitizeCoordinate alt.lng false,
        reason := jsStrOr alt.reason ("Better location suggested by AI"),
        distance := min 10000 (max 100 (jsNumOr alt.distance 1000)) }),
    riskLevel := match response.riskLevel with
      | some s => if ["low", "medium", "high"].contains s then s else "medium"
      | none => "medium",
    confidence := min 1 (max 0 (jsNumOr response.confidence 0.7)),
    keyFactors := match response.keyFactors with
      | some l => l.take 3
      | none => ["Regulatory compliance", "Material accessibility", "Site suitability"],
    nextSteps := match response.nextSteps with
      | some l => l.take 3
      | none => ["Site assessment", "Permit applications", "Material planning"] }

/-- The `SiteContext` sent to the AI collaborator. -/
structure SiteContext where
  selectedSite : Site
  nearestMaterials : List ProximityEntry
  restrictions : List String
deriving Repr

/-- `calculateAlternativeLocation`: displace the site eastward by the given
distance and sanitize the longitude. -/
def calculateAlternativeLocation (original : Site) (distance : ℚ) (reason : String) : AltLocation :=
  let newLng := original.lng + distance / 111000
  { lat := original.lat,
    lng := sanitizeCoordinate (JSNum.numv newLng) false,
    reason := reason,
    distance := distance }

/-- `generateSummary` of the rule-based fallback. -/
def generateSummary (restrictions : List String) (hasCloseMaterials : Bool) : String :=
  if restrictions.length = 0 ∧ hasCloseMaterials then
    "Favorable construction site with excellent material access and no major restrictions"
  else if restrictions.length > 0 ∧ !hasCloseMaterials then
    "Challenging site with multiple constraints and limited material access"
  else if restrictions.length > 0 then
    "Site has regulatory considerations but good material accessibility"
  else
    "Generally suitable site with potential material transportation considerations"

/-- Insertion into the model of the JavaScript `Set`: keep first-occurrence
order, no duplicates. -/
def addUniq (l : List String) (s : String) : List String :=
  if l.contains s then l else l ++ [s]

/-- `extractKeyFactors`: collect one factor per matched zone-type keyword, in
restriction order, capped at three. -/
def extractKeyFactors (restrictions : List String) : List String :=
  (restrictions.foldl (fun acc r =>
    let acc := if strContains r ("Protected Area") then addUniq acc ("Environmental conservation") else acc
    let acc := if strContains r ("Water Body") then addUniq acc ("Water resource management") else acc
    let acc := if strContains r ("Airport") then addUniq acc ("Aviation safety regulations") else acc
    if strContains r ("Transportation") then addUniq acc ("Infrastructure access") else acc) []).take 3

/-- `generateNextSteps` of the rule-based fallback, capped at three. -/
def generateNextSteps (riskLevel : String) (hasCloseMaterials : Bool)
    (restrictions : List String) : List String :=
  ((if riskLevel == "high" then
      ["Immediate site relocation recommended",
       "Consult with NEMA for environmental assessment"]
    else if riskLevel == "medium" then
      ["Conduct detailed site feasibility study",
       "Apply for necessary construction permits"]
    else [])
   ++ (if !hasCloseMaterials then ["Develop material logistics and transportation plan"] else [])
   ++ (if restrictions.any (fun r => strContains r ("Water Body")) then
        ["Conduct water resource impact assessment"] else [])
   ++ (if restrictions.any (fun r => strContains r ("Protected Area")) then
        ["Coordinate with Kenya Wildlife Service"] else [])
   ++ ["Review with qualified construction engineer"]).take 3

/-- `ruleBasedFallback`: the deterministic substitute recommendation built
when the AI collaborator fails. -/
def ruleBasedFallback (context : SiteContext) : AIRecommendation :=
  let hasProtectedArea := context.restrictions.any (fun r =>
    strContains r ("Protected Area") || strContains r ("National Park"))
  let hasWaterBody := context.restrictions.any (fun r =>
    strContains r ("Water Body") || strContains r ("Lake") || strContains r ("River"))
  let hasAirport := context.restrictions.any (fun r => strContains r ("Airport"))
  let hasCloseMaterials :=
    match context.nearestMaterials.head? with
    | some closest => decide (closest.distance < 5000)
    | none => false
  let rar : String × Option AltLocation × String :=
    if hasProtectedArea then
      ("Site within protected area boundary. Relocate at least 2km away to comply with Kenyan environmental regulations (NEMA).",
       some (calculateAlternativeLocation context.selectedSite 2000 ("Away from protected area boundary")),
       "high")
    else if hasWaterBody then
      ("Proximity to water body requires flood risk assessment and NEMA permits. Consider elevated site.",
       some (calculateAlternativeLocation context.selectedSite 500 ("Higher ground with better drainage")),
       "medium")
    else if hasAirport then
      ("Airport proximity may impose height restrictions and require KCAA clearance.", none, "medium")
    else if !hasCloseMaterials then
      ("Limited material access may increase construction costs. Consider material import or alternative construction methods.",
       none, "medium")
    else
      ("Site appears suitable with good material access. Proceed with standard construction approval process.",
       none, "low")
  { summary := generateSummary context.restrictions hasCloseMaterials,
    recommendation := rar.1,
    alternativeLocation := rar.2.1,
    riskLevel := rar.2.2,
    confidence := 0.8,
    keyFactors := extractKeyFactors context.restrictions,
    nextSteps := generateNextSteps rar.2.2 hasCloseMaterials context.restrictions }

/-- One line of the keyword scan of `fallbackParse`, accumulating
(summary, recommendation, riskLevel). -/
def fallbackParseStep (acc : String × String × String) (line : String) :
    String × String × String :=
  let lower := line.toLower
  let summary :=
    if strContains lower ("summary") || strContains lower ("assess") then
      jsStrOr (some (String.intercalate ":" ((line.splitOn (":")).drop 1)).trim) acc.1
    else acc.1
  let recommendation :=
    if strContains lower ("recommend") || strContains lower ("advice") then
      jsStrOr (some (String.intercalate ":" ((line.splitOn (":")).drop 1)).trim) acc.2.1
    else acc.2.1
  let risk := if strContains lower ("high risk") then "high" else acc.2.2
  let risk := if strContains lower ("low risk") then "low" else risk
  (summary, recommendation, risk)

/-- `fallbackParse`: keyword scan used when no JSON object is found in the
AI response text; `lines` is the text split on newlines. -/
def fallbackParse (lines : List String) : AIRecommendation :=
  let st := lines.foldl fallbackParseStep
    ("Site analysis completed", "Consider professional assessment", "medium")
  { summary := st.1,
    recommendation := st.2.1,
    alternativeLocation := none,
    riskLevel := st.2.2,
    confidence := 0.7,
    keyFactors := ["Regulatory compliance", "Material access", "Environmental impact"],
    nextSteps := ["Conduct site visit", "Review local regulations", "Consult with authorities"] }

/-- Structural validity of a delivered `AIRecommendation`, as the claim
states it. -/
def structValidAIRec (a : AIRecommendation) : Prop :=
  a.riskLevel ∈ ["low", "medium", "high"] ∧ 0 ≤ a.confidence ∧ a.confidence ≤ 1 ∧
    a.keyFactors.length ≤ 3 ∧ a.nextSteps.length ≤ 3

/-- Derived from the words of the claim, not from the source: the fallback
risk rule "ProtectedArea ⇒ high, WaterBody ⇒ medium, otherwise low/medium by
supply proximity". Used only to compare the claimed rule with
`ruleBasedFallback`. -/
def specFallbackRisk (context : SiteContext) : String :=
  let hasProtectedArea := context.restrictions.any (fun r =>
    strContains r ("Protected Area") || strContains r ("National Park"))
  let hasWaterBody := context.restrictions.any (fun r =>
    strContains r ("Water Body") || strContains r ("Lake") || strContains r ("River"))
  let hasCloseMaterials :=
    match context.nearestMaterials.head? with
    | some closest => decide (closest.distance < 5000)
    | none => false
  if hasProtectedArea then "high"
  else if hasWaterBody then "medium"
  else if hasCloseMaterials then "low"
  else "medium"

/-- The fallback risk derivation as the amended claim words it: ProtectedArea
⇒ high, WaterBody ⇒ medium, Airport ⇒ medium, otherwise low/medium by supply
proximity. Stated separately from `ruleBasedFallback` so the risk rule can
be isolated from the rest of the record. -/
def amendedFallbackRisk (context : SiteContext) : String :=
  let hasProtectedArea := context.restrictions.any (fun r =>
    strContains r ("Protected Area") || strContains r ("National Park"))
  let hasWaterBody := context.restrictions.any (fun r =>
    strContains r ("Water Body") || strContains r ("Lake") || strContains r ("River"))
  let hasAirport := context.restrictions.any (fun r => strContains r ("Airport"))
  let hasCloseMaterials :=
    match context.nearestMaterials.head? with
    | some closest => decide (closest.distance < 5000)
    | none => false
  if hasProtectedArea then "high"
  else if hasWaterBody then "medium"
  else if hasAirport then "medium"
  else if !hasCloseMaterials then "medium"
  else "low"

/-! ## Concrete fixtures used by witnesses and counterexamples -/

/-- Geometry provider whose operations always fail; every zone is then
skipped, as the source catch blocks do. -/
def trivialGeo : GeoProvider := ⟨fun _ _ => none, fun _ _ => none⟩

/-- Minimal environment fixture: no zones, no supply sites. -/
def trivialEnv : Env :=
  { geo := trivialGeo, dist := fun _ _ => 0, zones := [], materials := [] }

/-- Raw supply record with no usable coordinates (latitude and longitude
absent). -/
def badItem : RawSupplyItem :=
  { mongoId := none, id := none, questionnaireNo := none, researchAssistantNo := none,
    material := .str "Sand", materialLocation := none, locationName := none,
    locationCounty := none, locationSubCounty := none, locationWard := none,
    latitude := .missing, longitude := .missing,
    challenges := none, recommendations := none, timestamp := none, createdAt := none }

/-- Supply-site fixture; `tag` is stored as the latitude so that distance
oracles can discriminate the sites. -/
def mkMaterial (nm : String) (tag : ℚ) : Material :=
  { id := nm, questionnaireNo := "N/A", researchAssistantNo := "N/A",
    name := nm, type := ["Sand"],
    location := { name := nm, latitude := tag, longitude := 36,
                  county := "Unknown", subCounty := "Unknown", ward := "Unknown" },
    challenges := [], recommendations := [], timestamp := "t", icon := "🏖️" }

/-- Scenario D candidate site. -/
def scenarioDSite : Site := ⟨-1.2921, 36.8219⟩

/-- Scenario D supply sites, at distances [500, 1800, 6000, 40000, 60000] m
under `scenarioDDist`. -/
def scenarioDMaterials : List Material :=
  [mkMaterial ("Sand Site A") 1, mkMaterial ("Sand Site B") 2,
   mkMaterial ("Sand Site C") 3, mkMaterial ("Sand Site D") 4,
   mkMaterial ("Sand Site E") 5]

/-- Distance oracle (kilometers) realizing the Scenario D distances; a
point's latitude selects its distance. -/
def scenarioDDist : (ℚ × ℚ) → (ℚ × ℚ) → ℚ := fun _ p =>
  if p.2 = 1 then 1/2
  else if p.2 = 2 then 9/5
  else if p.2 = 3 then 6
  else if p.2 = 4 then 40
  else 60

/-- The nearest Scenario D proximity entry: 500 m away, 1 minute of travel
(0.75 rounded). -/
def entryD1 : ProximityEntry := ⟨mkMaterial ("Sand Site A") 1, 500, 1⟩

/-- Two distinct supply-site records at the same coordinates. -/
def dupMaterialA : Material := mkMaterial ("Duplicate Pit A") 7

/-- Second record co-located with `dupMaterialA`. -/
def dupMaterialB : Material := mkMaterial ("Duplicate Pit B") 7

/-- A closed Polygon ring with 53 vertices: (0,0), (1,0), ..., (51,0), (0,0). -/
def ring53 : List (ℚ × ℚ) :=
  ((List.range 52).map (fun i => ((i : ℚ), (0 : ℚ)))) ++ [(0, 0)]

/-- A closed Polygon ring with 52 vertices, whose last index is a multiple
of 3. -/
def ring52 : List (ℚ × ℚ) :=
  ((List.range 51).map (fun i => ((i : ℚ), (0 : ℚ)))) ++ [(0, 0)]

/-- Recursion view of the every-3rd-vertex index filter, used only to reason
about `keepEvery3`. -/
def keepIdx {α : Type} (n : ℕ) : List α → List α
  | [] => []
  | a :: t => if n % 3 = 0 then a :: keepIdx (n + 1) t else keepIdx (n + 1) t

/-- Turf provider fixture for feature processing. -/
def turfTriv : TurfModel := ⟨fun _ => [], fun _ _ => []⟩

/-- Feature fixture carrying the 53-vertex ring. -/
def feature53 : GeoFeature := ⟨"Big Zone", []⟩

/-- Water-body zone whose name does not contain its type text. -/
def lakeZone : RestrictedZone :=
  { id := "manual-3", name := "Lake Naivasha", type := "Water Body",
    coordinates := [[(36.35, -0.70), (36.45, -0.70), (36.45, -0.75),
                     (36.35, -0.75), (36.35, -0.70)]],
    bufferDistance := 500, bounds := none }

/-- Feature matching Water Body by name and Protected Area by boundary tag. -/
def lakeBogoria : GeoFeature := ⟨"Lake Bogoria", [("boundary", "protected_area")]⟩

/-- Feature matching Airport by name; used to exercise the top-priority rule. -/
def airportFeature : GeoFeature := ⟨"Nairobi Airport", []⟩

/-- Context with an Airport restriction and a close supply site (400 m). -/
def ctxAirportClose : SiteContext :=
  { selectedSite := ⟨-131/100, 3692/100⟩,
    nearestMaterials := [⟨mkMaterial ("Sand Site F") 9, 400, 1⟩],
    restrictions := ["🚫 Site is inside Jomo Kenyatta International Airport (Airport)"] }

/-! ## Theorems -/

/-- A value found by an association-list lookup is the value of some stored
pair. -/
theorem mem_of_lookup_eq_some {α β : Type} [BEq α] :
    ∀ {l : List (α × β)} {k : α} {v : β}, l.lookup k = some v → ∃ kk, (kk, v) ∈ l := by
  intro l
  induction l with
  | nil => intro k v h; simp [List.lookup] at h
  | cons p t ih =>
    intro k v h
    cases p with
    | mk a b =>
      rw [List.lookup] at h
      cases hk : (k == a) with
      | true =>
        rw [hk] at h
        have hv : b = v := by simpa using h
        exact ⟨a, by simp [hv]⟩
      | false =>
        rw [hk] at h
        obtain ⟨kk, hkk⟩ := ih h
        exact ⟨kk, List.mem_cons_of_mem _ hkk⟩

/-- C3 (corrected): every selection is evaluated exactly once, in arrival
order: a selection arriving more than 500 ms after the last immediate
evaluation runs at once, every other selection is deferred by 500 ms — none
is discarded. -/
theorem C3_every_selection_evaluated {α : Type} (lastTime : ℤ) (clicks : List (ℤ × α)) :
    (processClicks lastTime clicks).map Prod.snd = clicks.map Prod.snd := by
  induction clicks generalizing lastTime with
  | nil => rfl
  | cons c rest ih =>
    cases c with
    | mk t site =>
      rw [processClicks]
      split <;> simp [ih]

/-- C3 counterexample: for selections A at t=1000 and B at t=1200 (inside
one 500 ms window), the code evaluates A at 1000 and B at 1700; A is not
discarded, contradicting trailing-debounce semantics where only B would
run. -/
theorem C3_intermediate_not_discarded :
    processClicks (α := String) 0 [(1000, "A"), (1200, "B")] = [(1000, "A"), (1700, "B")] ∧
    "A" ∈ (processClicks (α := String) 0 [(1000, "A"), (1200, "B")]).map Prod.snd := by
  decide

/-- C10 (confirmed): the delivered `AnalysisResult` has `isValid = true`
exactly when its restrictions list is empty — for freshly computed results
by construction, and for cache hits whenever every cached result satisfies
the same invariant. -/
theorem C10_isValid_iff_no_restrictions (env : Env)
    (cache : List (((Bool × ℤ) × (Bool × ℤ)) × AnalysisResult)) (site : Site)
    (hcache : ∀ kv ∈ cache, (kv.2.isValid = true ↔ kv.2.restrictions = [])) :
    ((analyzeSite env cache site).2.isValid = true ↔
      (analyzeSite env cache site).2.restrictions = []) := by
  unfold analyzeSite
  cases h : cache.lookup (cacheKey site) with
  | some cached =>
    simp only [h]
    obtain ⟨kk, hkk⟩ := mem_of_lookup_eq_some h
    exact hcache _ hkk
  | none =>
    simp only [h, computeAnalysis]
    simp [List.length_eq_zero]

/-- Witness for C10: the invariant instantiated at the empty cache and the
origin site. -/
theorem C10_isValid_iff_no_restrictions_witness :
    (∀ kv ∈ ([] : List (((Bool × ℤ) × (Bool × ℤ)) × AnalysisResult)),
      (kv.2.isValid = true ↔ kv.2.restrictions = [])) ∧
    ((analyzeSite trivialEnv [] ⟨0, 0⟩).2.isValid = true ↔
      (analyzeSite trivialEnv [] ⟨0, 0⟩).2.restrictions = []) :=
  ⟨by simp, C10_isValid_iff_no_restrictions trivialEnv [] ⟨0, 0⟩ (by simp)⟩

/-- C2 counterexample: a record with absent latitude and longitude is not
excluded: it is stored with the default Nairobi coordinates and can appear
in a proximity result. -/
theorem C2_defaulted_record_not_excluded :
    (transformApiResponse ("2024-01-01T00:00:00Z") [badItem]).length = 1 ∧
    (transformApiResponse ("2024-01-01T00:00:00Z") [badItem]).map
      (fun m => (m.location.latitude, m.location.longitude)) = [(-1.2921, 36.8219)] ∧
    (findNearestMaterialsOptimized (fun _ _ => 0)
      (transformApiResponse ("2024-01-01T00:00:00Z") [badItem]) ⟨-1.2921, 36.8219⟩).length = 1 := by
  decide!

/-- C2 (corrected): processing never fails and never drops a record — the
output has one material per raw record; a missing, NaN or zero latitude is
replaced by the default -1.2921, and any other latitude is kept unchanged
(in particular out-of-range values). -/
theorem C2_invalid_coordinates_defaulted (now : String) (items : List RawSupplyItem) (i : ℕ)
    (item : RawSupplyItem) (h : items[i]? = some item) :
    (transformApiResponse now items).length = items.length ∧
    ∃ m, (transformApiResponse now items)[i]? = some m ∧
      ((item.latitude = .missing ∨ item.latitude = .nanv ∨ item.latitude = .numv 0) →
        m.location.latitude = (-1.2921 : ℚ)) ∧
      (∀ q : ℚ, q ≠ 0 → item.latitude = .numv q → m.location.latitude = q) := by
  refine ⟨by simp [transformApiResponse], ⟨transformOne now item, ?_, ?_, ?_⟩⟩
  · simp [transformApiResponse, List.getElem?_map, h]
  · intro hbad
    rcases hbad with hb | hb | hb <;> simp [transformOne, jsNumOr, hb]
  · intro q hq hl
    simp [transformOne, jsNumOr, hl, hq]

/-- Witness for C2: the defaulting theorem applied to the bad record. -/
theorem C2_invalid_coordinates_defaulted_witness :
    ([badItem][0]? = some badItem) ∧
    ((transformApiResponse ("t0") [badItem]).length = [badItem].length ∧
      ∃ m, (transformApiResponse ("t0") [badItem])[0]? = some m ∧
        ((badItem.latitude = .missing ∨ badItem.latitude = .nanv ∨ badItem.latitude = .numv 0) →
          m.location.latitude = (-1.2921 : ℚ)) ∧
        (∀ q : ℚ, q ≠ 0 → badItem.latitude = .numv q → m.location.latitude = q)) :=
  ⟨rfl, C2_invalid_coordinates_defaulted ("t0") [badItem] 0 badItem rfl⟩

/-- Equal rounded values with agreeing signs give equal key components. -/
theorem toFixed4_eq_of_q4val_eq {x y : ℚ} (hv : q4val x = q4val y) (hs : x < 0 ↔ y < 0) :
    toFixed4 x = toFixed4 y := by
  have hsd : decide (x < 0) = decide (y < 0) := by
    by_cases hx : x < 0
    · simp [hx, hs.mp hx]
    · have hy : ¬ y < 0 := fun h => hx (hs.mpr h)
      simp [hx, hy]
  have hm : ⌊|x| * 10000 + 1/2⌋ = ⌊|y| * 10000 + 1/2⌋ := by
    unfold q4val at hv
    by_cases hx : x < 0
    · have hy := hs.mp hx
      rw [if_pos hx, if_pos hy] at hv
      have hc : ((⌊|x| * 10000 + 1/2⌋ : ℤ) : ℚ) = ((⌊|y| * 10000 + 1/2⌋ : ℤ) : ℚ) := by linarith
      exact_mod_cast hc
    · have hy : ¬ y < 0 := fun h => hx (hs.mpr h)
      rw [if_neg hx, if_neg hy] at hv
      have hc : ((⌊|x| * 10000 + 1/2⌋ : ℤ) : ℚ) = ((⌊|y| * 10000 + 1/2⌋ : ℤ) : ℚ) := by linarith
      exact_mod_cast hc
  unfold toFixed4
  rw [hsd, hm]

/-- C7 (corrected): two sites whose coordinates round to the same 4-decimal
values and agree in sign produce identical cache keys, and a second
selection landing in an already-cached cell returns the already-cached
result with the cache unchanged (the second call performs no computation
and no insertion). -/
theorem C7_cache_key_and_hit (env : Env)
    (cache : List (((Bool × ℤ) × (Bool × ℤ)) × AnalysisResult)) (s1 s2 : Site)
    (h1 : q4val s1.lat = q4val s2.lat) (h2 : q4val s1.lng = q4val s2.lng)
    (h3 : s1.lat < 0 ↔ s2.lat < 0) (h4 : s1.lng < 0 ↔ s2.lng < 0) :
    cacheKey s1 = cacheKey s2 ∧
    analyzeSite env (analyzeSite env cache s1).1 s2 = analyzeSite env cache s1 := by
  have hkey : cacheKey s1 = cacheKey s2 := by
    unfold cacheKey
    rw [toFixed4_eq_of_q4val_eq h1 h3, toFixed4_eq_of_q4val_eq h2 h4]
  refine ⟨hkey, ?_⟩
  unfold analyzeSite
  rw [← hkey]
  cases h : cache.lookup (cacheKey s1) with
  | some cached => simp [h]
  | none => simp [h, List.lookup]

/-- C7 counterexample: latitudes 0.00001 and -0.00001 round to the same
4-decimal value (zero) yet produce different cache keys, because `toFixed`
renders the negative one as "-0.0000". -/
theorem C7_signed_zero_key_mismatch :
    q4val ((1 : ℚ)/100000) = q4val (-(1 : ℚ)/100000) ∧
    cacheKey ⟨(1 : ℚ)/100000, 36.8219⟩ ≠ cacheKey ⟨-(1 : ℚ)/100000, 36.8219⟩ := by
  decide!

/-- Witness for C7: two nonnegative sites in the same cell. -/
theorem C7_cache_key_and_hit_witness :
    cacheKey ⟨(1 : ℚ)/100000, 10⟩ = cacheKey ⟨(2 : ℚ)/100000, 10⟩ ∧
    analyzeSite trivialEnv (analyzeSite trivialEnv [] ⟨(1 : ℚ)/100000, 10⟩).1 ⟨(2 : ℚ)/100000, 10⟩ =
      analyzeSite trivialEnv [] ⟨(1 : ℚ)/100000, 10⟩ :=
  C7_cache_key_and_hit trivialEnv [] ⟨(1 : ℚ)/100000, 10⟩ ⟨(2 : ℚ)/100000, 10⟩
    (by decide!) (by decide!) (by decide!) (by decide!)

/-- Rounding is within half a unit. -/
theorem abs_jsRound_sub_le (x : ℚ) : |((jsRound x : ℤ) : ℚ) - x| ≤ 1/2 := by
  rw [abs_le]
  unfold jsRound
  constructor
  · have h := Int.lt_floor_add_one (x + 1/2)
    push_cast at h ⊢
    linarith
  · have h := Int.floor_le (x + 1/2)
    push_cast at h ⊢
    linarith

/-- C4 (corrected): the proximity list has length at most 5, is sorted
non-decreasing by distance (strictness fails on ties), and contains no entry
beyond 50 000 m; Scenario D returns exactly the 4 entries
[500, 1800, 6000, 40000] in ascending order. -/
theorem C4_proximity_shape :
    (∀ (dist : (ℚ × ℚ) → (ℚ × ℚ) → ℚ) (materials : List Material) (site : Site),
      (findNearestMaterialsOptimized dist materials site).length ≤ 5 ∧
      List.Sorted byDistance (findNearestMaterialsOptimized dist materials site) ∧
      ∀ e ∈ findNearestMaterialsOptimized dist materials site, e.distance ≤ 50000) ∧
    (findNearestMaterialsOptimized scenarioDDist scenarioDMaterials scenarioDSite).map
      (fun e => e.distance) = [500, 1800, 6000, 40000] := by
  constructor
  · intro dist materials site
    refine ⟨?_, ?_, ?_⟩
    · unfold findNearestMaterialsOptimized
      exact List.length_take_le _ _
    · unfold findNearestMaterialsOptimized
      exact ((List.sorted_insertionSort byDistance _).sublist (List.take_sublist _ _))
    · intro e he
      unfold findNearestMaterialsOptimized at he
      have h1 := List.take_subset _ _ he
      rw [List.mem_insertionSort] at h1
      have h2 := List.mem_filter.mp h1
      simpa using h2.2
  · decide!

/-- C4 counterexample: two supply-site records at the same coordinates, 500 m
from the site, both survive and carry equal distances, so the list is not
strictly ascending. -/
theorem C4_strict_ascending_fails :
    (findNearestMaterialsOptimized (fun _ _ => 1/2) [dupMaterialA, dupMaterialB] scenarioDSite).map
      (fun e => e.distance) = [500, 500] ∧
    ¬ List.Sorted (fun a b : ProximityEntry => a.distance < b.distance)
      (findNearestMaterialsOptimized (fun _ _ => 1/2) [dupMaterialA, dupMaterialB] scenarioDSite) := by
  decide!

/-- Witness for C4: the membership bound instantiated at the nearest
Scenario D entry. -/
theorem C4_proximity_shape_witness :
    entryD1 ∈ findNearestMaterialsOptimized scenarioDDist scenarioDMaterials scenarioDSite ∧
    entryD1.distance ≤ 50000 :=
  ⟨by decide!,
   (C4_proximity_shape.1 scenarioDDist scenarioDMaterials scenarioDSite).2.2 entryD1 (by decide!)⟩

/-- C8 (corrected): every retained entry's travel time is the 40 km/h
formula applied to the unrounded distance and then rounded to the nearest
minute, hence within half a minute of the exact value `(d/1000)/40*60`. -/
theorem C8_travel_time_rounded (dist : (ℚ × ℚ) → (ℚ × ℚ) → ℚ)
    (materials : List Material) (site : Site) (e : ProximityEntry)
    (he : e ∈ findNearestMaterialsOptimized dist materials site) :
    ∃ m ∈ materials, e.material = m ∧
      e.travelTime = jsRound
        (((dist (site.lng, site.lat) (m.location.longitude, m.location.latitude) * 1000) / 1000) / 40 * 60) ∧
      |(e.travelTime : ℚ) -
        ((dist (site.lng, site.lat) (m.location.longitude, m.location.latitude) * 1000) / 1000) / 40 * 60| ≤ 1/2 := by
  unfold findNearestMaterialsOptimized at he
  have h1 := List.take_subset _ _ he
  rw [List.mem_insertionSort] at h1
  have h2 := (List.mem_filter.mp h1).1
  obtain ⟨m, hm, hme⟩ := List.mem_map.mp h2
  refine ⟨m, hm, ?_, ?_, ?_⟩
  · rw [← hme]
  · rw [← hme]
  · rw [← hme]
    exact abs_jsRound_sub_le _

/-- C8 counterexample: a supply site 500 m away yields travelTime 1 minute,
but the exact formula value is 0.75 — the stored travel time does not equal
`(distanceMeters/1000)/40*60`. -/
theorem C8_travel_time_not_exact :
    (findNearestMaterialsOptimized (fun _ _ => 1/2) [dupMaterialA] scenarioDSite).map
      (fun e => (e.distance, e.travelTime)) = [(500, 1)] ∧
    ¬ ((1 : ℚ) = ((500 : ℚ) / 1000) / 40 * 60) := by
  decide!

/-- Witness for C8: the rounding bound instantiated at the nearest
Scenario D entry. -/
theorem C8_travel_time_rounded_witness :
    entryD1 ∈ findNearestMaterialsOptimized scenarioDDist scenarioDMaterials scenarioDSite ∧
    ∃ m ∈ scenarioDMaterials, entryD1.material = m ∧
      entryD1.travelTime = jsRound
        (((scenarioDDist (scenarioDSite.lng, scenarioDSite.lat)
            (m.location.longitude, m.location.latitude) * 1000) / 1000) / 40 * 60) ∧
      |(entryD1.travelTime : ℚ) -
        ((scenarioDDist (scenarioDSite.lng, scenarioDSite.lat)
            (m.location.longitude, m.location.latitude) * 1000) / 1000) / 40 * 60| ≤ 1/2 :=
  ⟨by decide!,
   C8_travel_time_rounded scenarioDDist scenarioDMaterials scenarioDSite entryD1 (by decide!)⟩

/-- The enum-filter-map form of `keepEvery3` equals the recursion view. -/
theorem enumFrom_filter_map_eq_keepIdx {α : Type} (l : List α) :
    ∀ n, ((List.enumFrom n l).filter (fun p => p.1 % 3 == 0)).map Prod.snd = keepIdx n l := by
  induction l with
  | nil => intro n; rfl
  | cons a t ih =>
    intro n
    rw [List.enumFrom, List.filter_cons]
    by_cases h : n % 3 = 0
    · simp only [h, keepIdx, if_true]
      simp [ih]
    · simp only [keepIdx, h, if_false]
      simp [h, ih]

/-- `keepEvery3` through the recursion view. -/
theorem keepEvery3_eq_keepIdx (l : List (ℚ × ℚ)) : keepEvery3 l = keepIdx 0 l := by
  unfold keepEvery3
  exact enumFrom_filter_map_eq_keepIdx l 0

/-- When the overall last index is divisible by 3, the filtered list keeps
the last element. -/
theorem keepIdx_getLast {α : Type} (l : List α) :
    ∀ n, l ≠ [] → (n + l.length - 1) % 3 = 0 → (keepIdx n l).getLast? = l.getLast? := by
  induction l with
  | nil => intro n h; exact absurd rfl h
  | cons a t ih =>
    intro n _ hmod
    cases t with
    | nil =>
      have hn : n % 3 = 0 := by simpa using hmod
      simp [keepIdx, hn]
    | cons b t2 =>
      have hmod' : ((n + 1) + (b :: t2).length - 1) % 3 = 0 := by
        simp only [List.length_cons] at hmod ⊢
        omega
      have hrec := ih (n + 1) (List.cons_ne_nil b t2) hmod'
      have hKne : keepIdx (n + 1) (b :: t2) ≠ [] := by
        intro h0
        rw [h0] at hrec
        have hs : (b :: t2).getLast?.isSome := List.getLast?_isSome.mpr (by simp)
        rw [← hrec] at hs
        simp at hs
      rw [List.getLast?_cons_cons]
      rw [keepIdx]
      by_cases hn : n % 3 = 0
      · rw [if_pos hn]
        cases hK : keepIdx (n + 1) (b :: t2) with
        | nil => exact absurd hK hKne
        | cons k ks =>
          rw [List.getLast?_cons_cons, ← hK, hrec]
      · rw [if_neg hn, hrec]

/-- C5 (corrected): a closed Polygon ring of at most 50 vertices passes
through simplification unchanged (hence stays closed); a longer closed ring
keeps its closing vertex — and with it ring closure — exactly in the case
that its last index is divisible by 3. -/
theorem C5_simplified_ring_closure (ring : List (ℚ × ℚ)) (hring : ringClosed ring) :
    (ring.length ≤ 50 → simplifyPolygon [ring] = [ring]) ∧
    (50 < ring.length → (ring.length - 1) % 3 = 0 →
      ∀ r ∈ simplifyPolygon [ring], ringClosed r) := by
  constructor
  · intro hle
    simp [simplifyPolygon, Nat.not_lt.mpr hle]
  · intro hgt hmod r hr
    have hne : ring ≠ [] := by
      intro h0; rw [h0] at hgt; simp at hgt
    have hr' : r = keepEvery3 ring := by
      simp [simplifyPolygon, hgt] at hr
      exact hr
    subst hr'
    rw [keepEvery3_eq_keepIdx]
    have hlast : (keepIdx 0 ring).getLast? = ring.getLast? :=
      keepIdx_getLast ring 0 hne (by simpa using hmod)
    cases ring with
    | nil => exact absurd rfl hne
    | cons a t =>
      unfold ringClosed at hring ⊢
      rw [hlast, ← hring]
      simp [keepIdx]

/-- C5 counterexample: ingestion of a Polygon feature with a closed
53-vertex ring produces a zone whose simplified body ring is not closed
(the filter keeps indices 0,3,...,51 and drops the closing vertex at
index 52). -/
theorem C5_simplification_breaks_closure :
    ringClosed ring53 ∧ 50 < ring53.length ∧
    (processFeature turfTriv 0 0 feature53 (.polygon [ring53])).map
      (fun z => decide (ringClosed (z.coordinates.headD []))) = some false := by
  decide!

/-- Witness for C5: a 52-vertex closed ring (last index 51 divisible by 3)
stays closed through simplification. -/
theorem C5_simplified_ring_closure_witness :
    ringClosed ring52 ∧ 50 < ring52.length ∧ (ring52.length - 1) % 3 = 0 ∧
    ∀ r ∈ simplifyPolygon [ring52], ringClosed r :=
  ⟨by decide!, by decide!, by decide!,
   (C5_simplified_ring_closure ring52 (by decide!)).2 (by decide!) (by decide!)⟩

/-- C6 (corrected): the classifier is the ordered predicate table
`codeZoneTable` — name-based (plus serialized-tag) checks in order
Airport > ProtectedArea > WaterBody > TransportationCorridor first, then the
tag-only fallbacks in order ProtectedArea > Airport > WaterBody >
TransportationCorridor — so a boundary-tag ProtectedArea match is demoted
below every name-based match; an Airport primary match always wins; the
buffer lookup is Airport 3000, Protected Area 2000, Water Body 500,
Transportation Corridor 200, anything else 1000. -/
theorem C6_classifier_and_buffers :
    (∀ f : GeoFeature, determineZoneType f = firstMatch codeZoneTable ("Restricted Area") f) ∧
    (∀ f : GeoFeature, matchAirportPrimary f = true → determineZoneType f = "Airport") ∧
    getBufferDistance ("Airport") = 3000 ∧ getBufferDistance ("Protected Area") = 2000 ∧
    getBufferDistance ("Water Body") = 500 ∧ getBufferDistance ("Transportation Corridor") = 200 ∧
    (∀ t : String,
      t ∉ ["Airport", "Protected Area", "Water Body", "Transportation Corridor"] →
      getBufferDistance t = 1000) := by
  refine ⟨fun f => rfl, ?_, rfl, rfl, rfl, rfl, ?_⟩
  · intro f h
    unfold determineZoneType
    unfold matchAirportPrimary at h
    unfold otherPropsOf at h
    rw [if_pos]
    simpa using h
  · intro t ht
    unfold getBufferDistance
    split
    · simp_all
    · simp_all
    · simp_all
    · simp_all
    · rfl

/-- C6 counterexample: the feature "Lake Bogoria" with tag
boundary=protected_area matches ProtectedArea by tag and WaterBody by name;
the claimed priority picks Protected Area, the code picks Water Body because
the boundary-tag check runs only after the name checks. -/
theorem C6_boundary_tag_demoted :
    determineZoneType lakeBogoria = "Water Body" ∧
    specPriorityZoneType lakeBogoria = "Protected Area" ∧
    matchBoundaryTag lakeBogoria = true ∧ matchWaterPrimary lakeBogoria = true := by
  decide!

/-- Witness for C6: an Airport-named feature takes the top-priority branch,
and an unmatched type string falls back to the 1000 m buffer. -/
theorem C6_classifier_and_buffers_witness :
    (matchAirportPrimary airportFeature = true ∧ determineZoneType airportFeature = "Airport") ∧
    ("Restricted Area" ∉ ["Airport", "Protected Area", "Water Body", "Transportation Corridor"] ∧
      getBufferDistance ("Restricted Area") = 1000) :=
  ⟨⟨by decide!, C6_classifier_and_buffers.2.1 airportFeature (by decide!)⟩,
   ⟨by decide!, C6_classifier_and_buffers.2.2.2.2.2.2 ("Restricted Area") (by decide!)⟩⟩

/-- The key-factor list of the fallback is capped at three entries. -/
theorem extractKeyFactors_length_le (restrictions : List String) :
    (extractKeyFactors restrictions).length ≤ 3 := by
  unfold extractKeyFactors
  exact List.length_take_le _ _

/-- The next-steps list of the fallback is capped at three entries. -/
theorem generateNextSteps_length_le (riskLevel : String) (hasCloseMaterials : Bool)
    (restrictions : List String) :
    (generateNextSteps riskLevel hasCloseMaterials restrictions).length ≤ 3 := by
  unfold generateNextSteps
  exact List.length_take_le _ _

/-- One keyword-scan step keeps the risk level in the valid set. -/
theorem fallbackParseStep_risk_mem (acc : String × String × String) (line : String)
    (h : acc.2.2 ∈ (["low", "medium", "high"] : List String)) :
    (fallbackParseStep acc line).2.2 ∈ (["low", "medium", "high"] : List String) := by
  unfold fallbackParseStep
  dsimp only
  split
  · simp
  · split
    · simp
    · simpa using h

/-- C9 (corrected): every delivered AIRecommendation is structurally valid —
riskLevel in {low, medium, high}, confidence in [0,1], at most 3 keyFactors
and nextSteps — on the validated path, the keyword-scan path and the
rule-based fallback path; and the fallback risk level follows the rule
ProtectedArea ⇒ high, WaterBody ⇒ medium, Airport ⇒ medium, otherwise
low/medium by supply proximity. -/
theorem C9_structural_validity :
    (∀ r : RawAIResponse, structValidAIRec (validateAIResponse r)) ∧
    (∀ lines : List String, structValidAIRec (fallbackParse lines)) ∧
    (∀ ctx : SiteContext, structValidAIRec (ruleBasedFallback ctx) ∧
      (ruleBasedFallback ctx).riskLevel = amendedFallbackRisk ctx) := by
  refine ⟨?_, ?_, ?_⟩
  · intro r
    unfold structValidAIRec validateAIResponse
    refine ⟨?_, ?_, ?_, ?_, ?_⟩
    · cases hr : r.riskLevel with
      | none => simp
      | some s =>
        simp only []
        split
        · next hc => simpa using hc
        · simp
    · exact le_min (by norm_num) (le_max_left 0 _)
    · exact min_le_left _ _
    · cases hk : r.keyFactors with
      | none => simp
      | some l => simp [List.length_take_le]
    · cases hk : r.nextSteps with
      | none => simp
      | some l => simp [List.length_take_le]
  · intro lines
    unfold structValidAIRec fallbackParse
    refine ⟨?_, by norm_num, by norm_num, by simp, by simp⟩
    have hfold : ∀ (ls : List String) (acc : String × String × String),
        acc.2.2 ∈ (["low", "medium", "high"] : List String) →
        (ls.foldl fallbackParseStep acc).2.2 ∈ (["low", "medium", "high"] : List String) := by
      intro ls
      induction ls with
      | nil => intro acc h; exact h
      | cons l rest ih =>
        intro acc h
        exact ih _ (fallbackParseStep_risk_mem acc l h)
    exact hfold lines _ (by simp)
  · intro ctx
    unfold structValidAIRec ruleBasedFallback amendedFallbackRisk
    cases hPA : ctx.restrictions.any (fun r =>
        strContains r ("Protected Area") || strContains r ("National Park")) <;>
    cases hWB : ctx.restrictions.any (fun r =>
        strContains r ("Water Body") || strContains r ("Lake") || strContains r ("River")) <;>
    cases hAP : ctx.restrictions.any (fun r => strContains r ("Airport")) <;>
    cases hCM : (match ctx.nearestMaterials.head? with
        | some closest => decide (closest.distance < 5000)
        | none => false) <;>
    simp [hPA, hWB, hAP, hCM, extractKeyFactors_length_le, generateNextSteps_length_le] <;>
    norm_num

/-- C9 counterexample: with an Airport restriction and a supply site 400 m
away, the code's fallback risk is medium, while the claimed rule (otherwise
low/medium by supply proximity) yields low — the Airport branch overrides
proximity. -/
theorem C9_airport_risk_not_by_proximity :
    (ruleBasedFallback ctxAirportClose).riskLevel = "medium" ∧
    specFallbackRisk ctxAirportClose = "low" := by
  decide!

/-- A string with a fixed head differs from any string with another head. -/
theorem append_left_ne (a s b : String) (hab : a.data.head? ≠ b.data.head?)
    (hA : a.data ≠ []) : a ++ s ≠ b := by
  intro h
  apply hab
  have hd : a.data ++ s.data = b.data := by
    rw [← String.data_append, h]
  rw [← hd]
  cases hA' : a.data with
  | nil => exact absurd hA' hA
  | cons c cs => simp [hA']

/-- Containment of an explicitly placed middle factor. -/
theorem strContains_append_middle (a t b : String) :
    strContains (a ++ (t ++ b)) t = true := by
  unfold strContains
  rw [decide_eq_true_eq]
  exact ⟨a.data, b.data, by simp⟩

/-- Counting in a conditional whose two branches avoid the string. -/
theorem count_if_zero {c : Prop} [Decidable c] (l1 l2 : List String) (s : String)
    (h1 : s ∉ l1) (h2 : s ∉ l2) : (if c then l1 else l2).count s = 0 := by
  split <;> simp [List.count_eq_zero, *]


/-- Counting a compliance-pair string in the synthesizer output reduces to
counting it in the four type-keyed advisory blocks: the compliance block,
the accessibility block and the material-type advisories never contain it. -/
theorem count_generateRecommendations (restrictions : List String)
    (proximities : List ProximityEntry) (s : String)
    (hs1 : s ∉ (["❌ Site has regulatory restrictions - consider alternative location",
      "📋 Required: Environmental impact assessment and permits",
      "✅ Site appears regulatory compliant",
      "📝 Proceed with standard construction approval process",
      "❌ No material sources found nearby",
      "🔍 Expand search radius or consider alternative materials",
      "🚚 Excellent material accessibility (< 2km)",
      "🚛 Good material availability (2-5km)",
      "💰 Consider transportation costs for distant materials",
      "💧 Consider water requirements for sand-based materials",
      "🏗️ Block materials suitable for foundation work",
      "🛣️ Ballast ideal for road construction and foundations"] : List String))
    (hs2 : s.data.head? ≠ some '📦') :
    (generateRecommendations restrictions proximities).count s =
    (if restrictions.any (fun r => strContains r ("Water Body")) then
       ["💧 Water body nearby - consider flood risk and water table",
        "🌊 Required: Water resource management plan and flood assessment"] else []).count s
    + (if restrictions.any (fun r => strContains r ("Protected Area")) then
       ["🌿 Near protected area - enhanced environmental compliance required",
        "🦁 Required: Wildlife impact assessment and conservation plan"] else []).count s
    + (if restrictions.any (fun r => strContains r ("Airport")) then
       ["✈️ Near airport - height restrictions and noise considerations apply",
        "📡 Required: Aviation safety assessment and height clearance"] else []).count s
    + (if restrictions.any (fun r => strContains r ("Transportation Corridor")) then
       ["🛣️ Near transportation corridor - access and safety considerations",
        "🚧 Required: Traffic management plan and access permits"] else []).count s := by
  simp only [List.mem_cons, not_or] at hs1
  obtain ⟨n1, n2, n3, n4, n5, n6, n7, n8, n9, n10, n11, n12, -⟩ := hs1
  unfold generateRecommendations
  cases proximities with
  | nil =>
    simp only [List.count_append]
    have hp1 : (if restrictions.length > 0 then
        (["❌ Site has regulatory restrictions - consider alternative location",
          "📋 Required: Environmental impact assessment and permits"] : List String) else
        ["✅ Site appears regulatory compliant",
         "📝 Proceed with standard construction approval process"]).count s = 0 :=
      count_if_zero _ _ _ (by simp [n1, n2]) (by simp [n3, n4])
    rw [hp1]
    have hp2 : (["❌ No material sources found nearby",
        "🔍 Expand search radius or consider alternative materials"] : List String).count s = 0 := by
      simp [List.count_eq_zero, n5, n6]
    rw [hp2]
    omega
  | cons closest rest =>
    simp only [List.count_append]
    have hp1 : (if restrictions.length > 0 then
        (["❌ Site has regulatory restrictions - consider alternative location",
          "📋 Required: Environmental impact assessment and permits"] : List String) else
        ["✅ Site appears regulatory compliant",
         "📝 Proceed with standard construction approval process"]).count s = 0 :=
      count_if_zero _ _ _ (by simp [n1, n2]) (by simp [n3, n4])
    have htier : (if closest.distance < 2000 then
        (["🚚 Excellent material accessibility (< 2km)"] : List String)
        else if closest.distance < 5000 then ["🚛 Good material availability (2-5km)"]
        else ["💰 Consider transportation costs for distant materials"]).count s = 0 := by
      refine count_if_zero _ _ _ (by simp [n7]) ?_
      intro hmem
      revert hmem
      split
      · intro h; exact n8 (by simpa using h)
      · intro h; exact n9 (by simpa using h)
    have hnsrc : (["📦 Nearest source: " ++ (closest.material.name ++ (" (" ++
        (toString closest.distance ++ "m)")))] : List String).count s = 0 := by
      rw [List.count_eq_zero]
      intro hmem
      rw [List.mem_singleton] at hmem
      exact append_left_ne ("📦 Nearest source: ") _ s (by simpa using (Ne.symm hs2)) (by decide)
        hmem.symm
    have hsand : (if ((closest :: rest).flatMap (fun item => item.material.type)).contains ("Sand")
        then (["💧 Consider water requirements for sand-based materials"] : List String)
        else []).count s = 0 :=
      count_if_zero _ _ _ (by simp [n10]) (by simp)
    have hblock : (if ((closest :: rest).flatMap (fun item => item.material.type)).contains ("Blocks")
        then (["🏗️ Block materials suitable for foundation work"] : List String)
        else []).count s = 0 :=
      count_if_zero _ _ _ (by simp [n11]) (by simp)
    have hball : (if ((closest :: rest).flatMap (fun item => item.material.type)).contains ("Ballast")
        then (["🛣️ Ballast ideal for road construction and foundations"] : List String)
        else []).count s = 0 :=
      count_if_zero _ _ _ (by simp [n12]) (by simp)
    rw [hp1, htier, hnsrc, hsand, hblock, hball]
    omega


/-- An Inside restriction string contains the zone type. -/
theorem inside_contains_type (f : Finding) (hsev : f.severity = .inside) :
    strContains (restrictionString f) f.zone.type = true := by
  unfold restrictionString
  rw [hsev]
  show strContains ("🚫 Site is inside " ++ (f.zone.name ++ (" (" ++ (f.zone.type ++ ")"))))
    f.zone.type = true
  have h : "🚫 Site is inside " ++ (f.zone.name ++ (" (" ++ (f.zone.type ++ ")"))) =
      ("🚫 Site is inside " ++ (f.zone.name ++ " (")) ++ (f.zone.type ++ ")") := by
    simp [String.append_assoc]
  rw [h]
  exact strContains_append_middle _ _ _

/-- C1 (corrected): for each of the four zone types, if findings contain an
Inside finding of that type, the output contains the fixed
compliance-requirement pair for that type exactly once. (A Buffered-only
finding guarantees nothing: its restriction string carries only the zone
name, see the counterexample.) -/
theorem C1_pairs_for_inside (findings : List Finding) (proximities : List ProximityEntry) :
    ((∃ f ∈ findings, f.severity = .inside ∧ f.zone.type = "Water Body") →
      (generateRecommendations (findings.map restrictionString) proximities).count
        ("💧 Water body nearby - consider flood risk and water table") = 1 ∧
      (generateRecommendations (findings.map restrictionString) proximities).count
        ("🌊 Required: Water resource management plan and flood assessment") = 1) ∧
    ((∃ f ∈ findings, f.severity = .inside ∧ f.zone.type = "Protected Area") →
      (generateRecommendations (findings.map restrictionString) proximities).count
        ("🌿 Near protected area - enhanced environmental compliance required") = 1 ∧
      (generateRecommendations (findings.map restrictionString) proximities).count
        ("🦁 Required: Wildlife impact assessment and conservation plan") = 1) ∧
    ((∃ f ∈ findings, f.severity = .inside ∧ f.zone.type = "Airport") →
      (generateRecommendations (findings.map restrictionString) proximities).count
        ("✈️ Near airport - height restrictions and noise considerations apply") = 1 ∧
      (generateRecommendations (findings.map restrictionString) proximities).count
        ("📡 Required: Aviation safety assessment and height clearance") = 1) ∧
    ((∃ f ∈ findings, f.severity = .inside ∧ f.zone.type = "Transportation Corridor") →
      (generateRecommendations (findings.map restrictionString) proximities).count
        ("🛣️ Near transportation corridor - access and safety considerations") = 1 ∧
      (generateRecommendations (findings.map restrictionString) proximities).count
        ("🚧 Required: Traffic management plan and access permits") = 1) := by
  refine ⟨?_, ?_, ?_, ?_⟩ <;> rintro ⟨f, hf, hsev, htype⟩ <;>
    [skip; skip; skip; skip]
  case _ =>
    have hany : (findings.map restrictionString).any
        (fun r => strContains r ("Water Body")) = true :=
      List.any_eq_true.mpr ⟨restrictionString f, List.mem_map_of_mem _ hf, by
        rw [← htype]; exact inside_contains_type f hsev⟩
    constructor
    · have h1 := count_generateRecommendations (findings.map restrictionString) proximities
        ("💧 Water body nearby - consider flood risk and water table") (by decide!) (by decide!)
      rw [if_pos hany, count_if_zero _ _ _ (by decide!) (by decide!),
          count_if_zero _ _ _ (by decide!) (by decide!),
          count_if_zero _ _ _ (by decide!) (by decide!)] at h1
      rw [h1]
      decide!
    · have h1 := count_generateRecommendations (findings.map restrictionString) proximities
        ("🌊 Required: Water resource management plan and flood assessment") (by decide!) (by decide!)
      rw [if_pos hany, count_if_zero _ _ _ (by decide!) (by decide!),
          count_if_zero _ _ _ (by decide!) (by decide!),
          count_if_zero _ _ _ (by decide!) (by decide!)] at h1
      rw [h1]
      decide!
  case _ =>
    have hany : (findings.map restrictionString).any
        (fun r => strContains r ("Protected Area")) = true :=
      List.any_eq_true.mpr ⟨restrictionString f, List.mem_map_of_mem _ hf, by
        rw [← htype]; exact inside_contains_type f hsev⟩
    constructor
    · have h1 := count_generateRecommendations (findings.map restrictionString) proximities
        ("🌿 Near protected area - enhanced environmental compliance required") (by decide!) (by decide!)
      rw [count_if_zero _ _ _ (by decide!) (by decide!), if_pos hany,
          count_if_zero _ _ _ (by decide!) (by decide!),
          count_if_zero _ _ _ (by decide!) (by decide!)] at h1
      rw [h1]
      decide!
    · have h1 := count_generateRecommendations (findings.map restrictionString) proximities
        ("🦁 Required: Wildlife impact assessment and conservation plan") (by decide!) (by decide!)
      rw [count_if_zero _ _ _ (by decide!) (by decide!), if_pos hany,
          count_if_zero _ _ _ (by decide!) (by decide!),
          count_if_zero _ _ _ (by decide!) (by decide!)] at h1
      rw [h1]
      decide!
  case _ =>
    have hany : (findings.map restrictionString).any
        (fun r => strContains r ("Airport")) = true :=
      List.any_eq_true.mpr ⟨restrictionString f, List.mem_map_of_mem _ hf, by
        rw [← htype]; exact inside_contains_type f hsev⟩
    constructor
    · have h1 := count_generateRecommendations (findings.map restrictionString) proximities
        ("✈️ Near airport - height restrictions and noise considerations apply") (by decide!) (by decide!)
      rw [count_if_zero _ _ _ (by decide!) (by decide!),
          count_if_zero _ _ _ (by decide!) (by decide!), if_pos hany,
          count_if_zero _ _ _ (by decide!) (by decide!)] at h1
      rw [h1]
      decide!
    · have h1 := count_generateRecommendations (findings.map restrictionString) proximities
        ("📡 Required: Aviation safety assessment and height clearance") (by decide!) (by decide!)
      rw [count_if_zero _ _ _ (by decide!) (by decide!),
          count_if_zero _ _ _ (by decide!) (by decide!), if_pos hany,
          count_if_zero _ _ _ (by decide!) (by decide!)] at h1
      rw [h1]
      decide!
  case _ =>
    have hany : (findings.map restrictionString).any
        (fun r => strContains r ("Transportation Corridor")) = true :=
      List.any_eq_true.mpr ⟨restrictionString f, List.mem_map_of_mem _ hf, by
        rw [← htype]; exact inside_contains_type f hsev⟩
    constructor
    · have h1 := count_generateRecommendations (findings.map restrictionString) proximities
        ("🛣️ Near transportation corridor - access and safety considerations") (by decide!) (by decide!)
      rw [count_if_zero _ _ _ (by decide!) (by decide!),
          count_if_zero _ _ _ (by decide!) (by decide!),
          count_if_zero _ _ _ (by decide!) (by decide!), if_pos hany] at h1
      rw [h1]
      decide!
    · have h1 := count_generateRecommendations (findings.map restrictionString) proximities
        ("🚧 Required: Traffic management plan and access permits") (by decide!) (by decide!)
      rw [count_if_zero _ _ _ (by decide!) (by decide!),
          count_if_zero _ _ _ (by decide!) (by decide!),
          count_if_zero _ _ _ (by decide!) (by decide!), if_pos hany] at h1
      rw [h1]
      decide!


/-- C1 counterexample: a Buffered finding for the Water-Body zone "Lake
Naivasha" yields no flood-assessment pair at all, because the buffered
restriction string contains the zone name but not the type text. -/
theorem C1_buffered_pair_missing :
    ([Finding.mk lakeZone .buffered].map (fun f => f.zone.type)) = ["Water Body"] ∧
    (generateRecommendations ([Finding.mk lakeZone .buffered].map restrictionString) []).count
      ("🌊 Required: Water resource management plan and flood assessment") = 0 ∧
    (generateRecommendations ([Finding.mk lakeZone .buffered].map restrictionString) []).count
      ("💧 Water body nearby - consider flood risk and water table") = 0 := by
  decide!

/-- Witness for C1: an Inside finding for the same zone produces the pair
exactly once. -/
theorem C1_pairs_for_inside_witness :
    (∃ f ∈ [Finding.mk lakeZone .inside], f.severity = .inside ∧ f.zone.type = "Water Body") ∧
    ((generateRecommendations ([Finding.mk lakeZone .inside].map restrictionString) []).count
      ("💧 Water body nearby - consider flood risk and water table") = 1 ∧
    (generateRecommendations ([Finding.mk lakeZone .inside].map restrictionString) []).count
      ("🌊 Required: Water resource management plan and flood assessment") = 1) :=
  ⟨by decide!, (C1_pairs_for_inside [Finding.mk lakeZone .inside] []).1 (by decide!)⟩


end Timbua
